import Mathlib

/-!
# Verification of `ejs.Document` (elastic.js, `src/index/Document.js`)

Shallow embedding of the fluent document builder: a `Document` holds the
identity fields (`index`, `type`, `id`) and the option map `params`; the
option accessors, the two renderers (`genClientParams`, `genParamStr`) and
the four dispatch operations (`doGet`, `doIndex`, `doUpdate`, `doDelete`)
are translated statement by statement from the source.

JavaScript values reachable through the public API are modelled by `JVal`
(strings, integer numbers, booleans, arrays, plain objects); `null` and
`undefined` arguments are modelled by `Option.none` (the source only tests
them with `== null`, which identifies the two).  The option map is an
association list in insertion order, matching for-in enumeration order of a
plain JS object whose keys are all non-numeric strings.  The injected HTTP
client is modelled by the request it would receive (`Request`), and a
boolean flag records whether `ejs.client` is configured; an operation that
throws produces `Except.error` and hence no request.  Each accessor call
returns an `AccResult` carrying the builder state after the call, so that
mutation (or its absence) on every path, including throwing paths, is part
of the model.
-/

set_option autoImplicit false

namespace ElasticDoc

/-- JavaScript values reachable through the `ejs.Document` API. -/
inductive JVal where
  | str (s : String)
  | num (n : Int)
  | bool (b : Bool)
  | arr (elems : List JVal)
  | obj (fields : List (String × JVal))
  deriving Repr

/-- The internal option map `params`: a JS object used as a string-keyed
dictionary, in insertion order. -/
abbrev Params := List (String × JVal)

/-- Property read `params[key]`: first entry with the key, `none` models
`undefined`. -/
def getParam : Params → String → Option JVal
  | [], _ => none
  | (k, v) :: rest, key => if k == key then some v else getParam rest key

/-- Property write `params[key] = v`: overwrites in place an existing key
(keeping its position, as JS objects do) or appends a new one. -/
def setParam : Params → String → JVal → Params
  | [], key, v => [(key, v)]
  | (k, w) :: rest, key, v =>
    if k == key then (key, v) :: rest else (k, w) :: setParam rest key v

/-- Modelled from the spec: the `isString` helper used by `fields` is not
under `src/`; per the spec, it tests for a string. -/
def isString : JVal → Bool
  | .str _ => true
  | _ => false

/-- Modelled from the spec: the `isArray` helper used by `fields` and
`genClientParams` is not under `src/`; per the spec, it tests for a
sequence. -/
def isArray : JVal → Bool
  | .arr _ => true
  | _ => false

/-- Modelled from the spec: the `isObject` helper used by `params`,
`upsert` and `source` is not under `src/`; per the spec, it tests for a
key-value mapping object. -/
def isObject : JVal → Bool
  | .obj _ => true
  | _ => false

mutual

/-- JavaScript `ToString` coercion restricted to `JVal` (used by string
concatenation `+`, `Array.prototype.join` and `encodeURIComponent`). -/
def jsToString : JVal → String
  | .str s => s
  | .num n => toString n
  | .bool b => cond b "true" "false"
  | .arr xs => String.intercalate "," (jsToStringList xs)
  | .obj _ => "[object Object]"

/-- `ToString` of each element of a list, as in `Array.prototype.join`. -/
def jsToStringList : List JVal → List String
  | [] => []
  | x :: xs => jsToString x :: jsToStringList xs

end

/-- Hex digit as `encodeURIComponent` emits it (uppercase). -/
def hexUpper (n : Nat) : Char :=
  if n < 10 then Char.ofNat (48 + n) else Char.ofNat (55 + n)

/-- Hex digit as `JSON.stringify` emits it in `\u00xx` escapes (lowercase). -/
def hexLower (n : Nat) : Char :=
  if n < 10 then Char.ofNat (48 + n) else Char.ofNat (87 + n)

/-- The UTF-8 encoding of one code point, as a list of byte values. -/
def utf8Bytes (c : Char) : List Nat :=
  let n := c.toNat
  if n < 128 then [n]
  else if n < 2048 then [192 + n / 64, 128 + n % 64]
  else if n < 65536 then [224 + n / 4096, 128 + n / 64 % 64, 128 + n % 64]
  else [240 + n / 262144, 128 + n / 4096 % 64, 128 + n / 64 % 64, 128 + n % 64]

/-- One UTF-8 byte, percent-encoded unless it is unreserved for
`encodeURIComponent` (letters, digits, `- _ . ! ~ * ' ( )`). -/
def encodeByte (n : Nat) : String :=
  if (65 ≤ n && n ≤ 90) || (97 ≤ n && n ≤ 122) || (48 ≤ n && n ≤ 57) ||
      n == 45 || n == 95 || n == 46 || n == 33 || n == 126 ||
      n == 42 || n == 39 || n == 40 || n == 41 then
    String.singleton (Char.ofNat n)
  else
    "%" ++ String.singleton (hexUpper (n / 16)) ++ String.singleton (hexUpper (n % 16))

/-- The ECMAScript `encodeURIComponent` builtin: percent-encodes every
UTF-8 byte outside the unreserved set. -/
def encodeURIComponent (s : String) : String :=
  String.join (s.toList.map fun c => String.join ((utf8Bytes c).map encodeByte))

/-- JSON escaping of one character, as `JSON.stringify` does inside string
literals. -/
def jsonEscapeChar (c : Char) : String :=
  if c = '"' then "\\\""
  else if c = '\\' then "\\\\"
  else if c = '\n' then "\\n"
  else if c = '\r' then "\\r"
  else if c = '\t' then "\\t"
  else if c = Char.ofNat 8 then "\\b"
  else if c = Char.ofNat 12 then "\\f"
  else if c.toNat < 32 then
    "\\u00" ++ String.singleton (hexLower (c.toNat / 16)) ++
      String.singleton (hexLower (c.toNat % 16))
  else String.singleton c

/-- JSON escaping of a whole string body. -/
def jsonEscape (s : String) : String :=
  String.join (s.toList.map jsonEscapeChar)

mutual

/-- The `JSON.stringify` builtin restricted to `JVal`. -/
def stringify : JVal → String
  | .str s => "\"" ++ jsonEscape s ++ "\""
  | .num n => toString n
  | .bool b => cond b "true" "false"
  | .arr xs => "[" ++ String.intercalate "," (stringifyList xs) ++ "]"
  | .obj kvs => "\x7b" ++ String.intercalate "," (stringifyFields kvs) ++ "\x7d"

/-- `JSON.stringify` of array elements. -/
def stringifyList : List JVal → List String
  | [] => []
  | x :: xs => stringify x :: stringifyList xs

/-- `JSON.stringify` of object members (`"key":value`). -/
def stringifyFields : List (String × JVal) → List String
  | [] => []
  | (k, v) :: kvs =>
    ("\"" ++ jsonEscape k ++ "\":" ++ stringify v) :: stringifyFields kvs

end

/-- The builder state: the closure variables `index`, `type`, `id` and the
option map `params` of `ejs.Document(index, type, id)`. -/
structure Document where
  index : Option JVal
  type : Option JVal
  id : Option JVal
  params : Params
  deriving Repr

/-- Errors thrown by the builder: `throw new TypeError(msg)` versus
`throw new Error(msg)`. -/
inductive DocError where
  | typeError (msg : String)
  | error (msg : String)
  deriving Repr

/-- Result of one accessor call, together with the builder state after the
call (the call may mutate the closure even on a throwing path). `got v d`
models a getter call returning `v` (`none` = `undefined`); `chained d`
models a setter call returning `this`; `threw e d` models a thrown
exception. -/
inductive AccResult where
  | got (v : Option JVal) (d : Document)
  | chained (d : Document)
  | threw (e : DocError) (d : Document)
  deriving Repr

/-- `String.prototype.toLowerCase`, restricted to ASCII (the option
values the builder validates are all ASCII; the full Unicode case tables
are out of scope). -/
def strToLower (s : String) : String :=
  String.mk (s.data.map Char.toLower)

/-- `v.toLowerCase()`: lowercases a string, and throws a `TypeError` on any
non-string (no other `JVal` has a `toLowerCase` method). -/
def toLowerCase : JVal → Except DocError String
  | .str s => .ok (strToLower s)
  | _ => .error (.typeError "toLowerCase is not a function")

namespace DocAcc

/-- The shared shape of the unvalidated option accessors
(`routing`, `parent`, `timestamp`, `ttl`, `timeout`, `refresh`, `version`,
`percolate`, `preference`, `realtime`, `script`, `lang`,
`retryOnConflict`): `null` reads `params[key]`, any other value is stored
and `this` is returned. -/
def paramAcc (key : String) (d : Document) (arg : Option JVal) : AccResult :=
  match arg with
  | none => .got (getParam d.params key) d
  | some v => .chained { d with params := setParam d.params key v }

/-- The shared shape of `params`, `upsert` and `source`: validates with
`isObject`, throwing `TypeError('Argument must be an object')` otherwise. -/
def objAcc (key : String) (d : Document) (arg : Option JVal) : AccResult :=
  match arg with
  | none => .got (getParam d.params key) d
  | some v =>
    if isObject v then .chained { d with params := setParam d.params key v }
    else .threw (.typeError "Argument must be an object") d

/-- Accessor `index`. -/
def index (d : Document) (idx : Option JVal) : AccResult :=
  match idx with
  | none => .got d.index d
  | some v => .chained { d with index := some v }

/-- Accessor `type`. -/
def type (d : Document) (t : Option JVal) : AccResult :=
  match t with
  | none => .got d.type d
  | some v => .chained { d with type := some v }

/-- Accessor `id`. -/
def id (d : Document) (i : Option JVal) : AccResult :=
  match i with
  | none => .got d.id d
  | some v => .chained { d with id := some v }

/-- Accessor `routing`. -/
def routing : Document → Option JVal → AccResult := paramAcc "routing"

/-- Accessor `parent`. -/
def parent : Document → Option JVal → AccResult := paramAcc "parent"

/-- Accessor `timestamp`. -/
def timestamp : Document → Option JVal → AccResult := paramAcc "timestamp"

/-- Accessor `ttl`. -/
def ttl : Document → Option JVal → AccResult := paramAcc "ttl"

/-- Accessor `timeout`. -/
def timeout : Document → Option JVal → AccResult := paramAcc "timeout"

/-- Accessor `refresh`. -/
def refresh : Document → Option JVal → AccResult := paramAcc "refresh"

/-- Accessor `version`. -/
def version : Document → Option JVal → AccResult := paramAcc "version"

/-- Accessor `versionType`: lowercases, then stores only `internal` or
`external` under key `version_type`; other strings are silently dropped. -/
def versionType (d : Document) (vt : Option JVal) : AccResult :=
  match vt with
  | none => .got (getParam d.params "version_type") d
  | some v =>
    match toLowerCase v with
    | .error e => .threw e d
    | .ok s =>
      if s == "internal" || s == "external" then
        .chained { d with params := setParam d.params "version_type" (.str s) }
      else .chained d

/-- Accessor `percolate`. -/
def percolate : Document → Option JVal → AccResult := paramAcc "percolate"

/-- Accessor `opType`: lowercases, then stores only `index` or `create`
under key `op_type`. -/
def opType (d : Document) (op : Option JVal) : AccResult :=
  match op with
  | none => .got (getParam d.params "op_type") d
  | some v =>
    match toLowerCase v with
    | .error e => .threw e d
    | .ok s =>
      if s == "index" || s == "create" then
        .chained { d with params := setParam d.params "op_type" (.str s) }
      else .chained d

/-- Accessor `replication`: lowercases, then stores only `async`, `sync`
or `default`. -/
def replication (d : Document) (r : Option JVal) : AccResult :=
  match r with
  | none => .got (getParam d.params "replication") d
  | some v =>
    match toLowerCase v with
    | .error e => .threw e d
    | .ok s =>
      if s == "async" || s == "sync" || s == "default" then
        .chained { d with params := setParam d.params "replication" (.str s) }
      else .chained d

/-- Accessor `consistency`: lowercases, then stores only `default`, `one`,
`quorum` or `all`. -/
def consistency (d : Document) (c : Option JVal) : AccResult :=
  match c with
  | none => .got (getParam d.params "consistency") d
  | some v =>
    match toLowerCase v with
    | .error e => .threw e d
    | .ok s =>
      if s == "default" || s == "one" || s == "quorum" || s == "all" then
        .chained { d with params := setParam d.params "consistency" (.str s) }
      else .chained d

/-- Accessor `preference`. -/
def preference : Document → Option JVal → AccResult := paramAcc "preference"

/-- Accessor `realtime`. -/
def realtime : Document → Option JVal → AccResult := paramAcc "realtime"

/-- The lazy initialization at the top of `fields`:
`if (params.fields == null) params.fields = [];` runs before anything
else, on getter, setter and throwing paths alike. -/
def fieldsInit (d : Document) : Document :=
  if (getParam d.params "fields").isNone then
    { d with params := setParam d.params "fields" (JVal.arr []) }
  else d

/-- Accessor `fields`: after lazy initialization, `null` reads the stored
list, a string is pushed onto it, an array replaces it, anything else
throws `TypeError('Argument must be string or array')`. -/
def fields (d0 : Document) (arg : Option JVal) : AccResult :=
  let d := fieldsInit d0
  match arg with
  | none => .got (getParam d.params "fields") d
  | some v =>
    if isString v then
      match getParam d.params "fields", v with
      | some (.arr xs), .str s =>
        .chained { d with params := setParam d.params "fields" (.arr (xs ++ [.str s])) }
      | _, _ => .threw (.typeError "push is not a function") d
    else if isArray v then
      .chained { d with params := setParam d.params "fields" v }
    else
      .threw (.typeError "Argument must be string or array") d

/-- Accessor `script`. -/
def script : Document → Option JVal → AccResult := paramAcc "script"

/-- Accessor `lang`. -/
def lang : Document → Option JVal → AccResult := paramAcc "lang"

/-- Accessor `params` (script parameters). -/
def params : Document → Option JVal → AccResult := objAcc "params"

/-- Accessor `retryOnConflict` (stored under key `retry_on_conflict`). -/
def retryOnConflict : Document → Option JVal → AccResult := paramAcc "retry_on_conflict"

/-- Accessor `upsert`. -/
def upsert : Document → Option JVal → AccResult := objAcc "upsert"

/-- Accessor `source`. -/
def source : Document → Option JVal → AccResult := objAcc "source"

end DocAcc

/-- The per-value processing inside `genClientParams`:
`if (isArray(paramVal)) paramVal = paramVal.join();` — a no-argument
`join` uses the separator `","`. -/
def joinIfArray (v : JVal) : JVal :=
  if isArray v then
    match v with
    | .arr xs => .str (String.intercalate "," (jsToStringList xs))
    | w => w
  else v

/-- `genClientParams()`: walks the option map, skips the keys that belong
in the request body (`upsert`, `source`, `script`, `lang`, `params`), and
comma-joins array values. -/
def genClientParams : Params → Params
  | [] => []
  | (param, v) :: rest =>
    if param == "upsert" || param == "source" ||
        param == "script" || param == "lang" || param == "params" then
      genClientParams rest
    else
      (param, joinIfArray v) :: genClientParams rest

/-- `genParamStr()`: renders `genClientParams()` as
`param1=val1&param2=val2`, URL-encoding each value. -/
def genParamStr (ps : Params) : String :=
  String.intercalate "&"
    ((genClientParams ps).map fun kv => kv.1 ++ "=" ++ encodeURIComponent (jsToString kv.2))

/-- The single outbound call an operation hands to the injected client:
`get(url, data, cb)`, `post(url, body, cb)`, `put(url, body, cb)` or
`del(url, body, cb)`. -/
inductive Request where
  | get (url : String) (data : Params)
  | post (url : String) (body : String)
  | put (url : String) (body : String)
  | del (url : String) (body : String)
  deriving Repr

/-- `doGet(cb)`: checks for a client, then for `index`/`type`/`id`, then
issues a GET on `/index/type/id` passing `genClientParams()` as structured
data.  The second component is the builder state after the call: no path
of any dispatch operation assigns to the closure variables, so it is the
input state. -/
def doGet (client : Bool) (d : Document) : Except DocError Request × Document :=
  (if client = false then .error (.error "No Client Set")
   else
     match d.index, d.type, d.id with
     | some i, some t, some v =>
       .ok (.get ("/" ++ jsToString i ++ "/" ++ jsToString t ++ "/" ++ jsToString v)
         (genClientParams d.params))
     | _, _, _ => .error (.error "Index, Type, and ID must be set"),
   d)

/-- `doIndex(cb)`: checks for a client, for `index`/`type`, and for a set
`source`; appends `/id` when `id` is set and `?`+query string when the
query string is non-empty; POSTs when `id` is unset, PUTs otherwise, with
body `JSON.stringify(params.source)`. -/
def doIndex (client : Bool) (d : Document) : Except DocError Request × Document :=
  (if client = false then .error (.error "No Client Set")
   else
     match d.index, d.type with
     | some i, some t =>
       match getParam d.params "source" with
       | none => .error (.error "No source document found")
       | some src =>
         let url := "/" ++ jsToString i ++ "/" ++ jsToString t
         let data := stringify src
         let paramStr := genParamStr d.params
         let url := match d.id with
           | some v => url ++ "/" ++ jsToString v
           | none => url
         let url := if paramStr ≠ "" then url ++ "?" ++ paramStr else url
         match d.id with
         | none => .ok (.post url data)
         | some _ => .ok (.put url data)
     | _, _ => .error (.error "Index and Type must be set"),
   d)

/-- The body object built by `doUpdate`: `script`, `lang`, `params`,
`upsert` copied when set, and `doc` aliased from `source` when set, in
that insertion order. -/
def updateData (ps : Params) : List (String × JVal) :=
  let data : List (String × JVal) := []
  let data := match getParam ps "script" with
    | some v => data ++ [("script", v)]
    | none => data
  let data := match getParam ps "lang" with
    | some v => data ++ [("lang", v)]
    | none => data
  let data := match getParam ps "params" with
    | some v => data ++ [("params", v)]
    | none => data
  let data := match getParam ps "upsert" with
    | some v => data ++ [("upsert", v)]
    | none => data
  let data := match getParam ps "source" with
    | some v => data ++ [("doc", v)]
    | none => data
  data

/-- `doUpdate(cb)`: checks for a client, for `index`/`type`/`id`, and for
at least one of `script`/`source`; POSTs `JSON.stringify(data)` to
`/index/type/id/_update`, with `?`+query string appended when non-empty. -/
def doUpdate (client : Bool) (d : Document) : Except DocError Request × Document :=
  (if client = false then .error (.error "No Client Set")
   else
     match d.index, d.type, d.id with
     | some i, some t, some v =>
       if (getParam d.params "script").isNone && (getParam d.params "source").isNone then
         .error (.error "Update script or document required")
       else
         let url := "/" ++ jsToString i ++ "/" ++ jsToString t ++ "/" ++ jsToString v ++ "/_update"
         let paramStr := genParamStr d.params
         let url := if paramStr ≠ "" then url ++ "?" ++ paramStr else url
         .ok (.post url (stringify (.obj (updateData d.params))))
     | _, _, _ => .error (.error "Index, Type, and ID must be set"),
   d)

/-- `doDelete(cb)`: checks for a client and for `index`/`type`/`id`, then
DELETEs `/index/type/id` (empty body), with `?`+query string appended when
non-empty. -/
def doDelete (client : Bool) (d : Document) : Except DocError Request × Document :=
  (if client = false then .error (.error "No Client Set")
   else
     match d.index, d.type, d.id with
     | some i, some t, some v =>
       let url := "/" ++ jsToString i ++ "/" ++ jsToString t ++ "/" ++ jsToString v
       let data := ""
       let paramStr := genParamStr d.params
       let url := if paramStr ≠ "" then url ++ "?" ++ paramStr else url
       .ok (.del url data)
     | _, _, _ => .error (.error "Index, Type, and ID must be set"),
   d)

/-- `toString()`: the JSON encoding of the full option map. -/
def docToString (d : Document) : String :=
  stringify (.obj d.params)

/-! ## Basic lemmas about the option map -/

theorem getParam_setParam_self : ∀ (ps : Params) (k : String) (v : JVal),
    getParam (setParam ps k v) k = some v
  | [], k, v => by simp [getParam, setParam]
  | (k', w) :: rest, k, v => by
    by_cases h : k' = k
    · simp [setParam, getParam, h]
    · simp [setParam, getParam, h, getParam_setParam_self rest k v]

theorem getParam_setParam_ne : ∀ (ps : Params) (k k' : String) (v : JVal),
    k ≠ k' → getParam (setParam ps k v) k' = getParam ps k'
  | [], k, k', v, h => by simp [getParam, setParam, h]
  | (p, w) :: rest, k, k', v, h => by
    by_cases hp : p = k
    · simp [setParam, getParam, hp, h]
    · by_cases hp' : p = k'
      · subst hp'
        simp [setParam, getParam, hp]
      · simp [setParam, getParam, hp, hp', getParam_setParam_ne rest k k' v h]

theorem setParam_setParam : ∀ (ps : Params) (k : String) (v w : JVal),
    setParam (setParam ps k v) k w = setParam ps k w
  | [], k, v, w => by simp [setParam]
  | (p, u) :: rest, k, v, w => by
    by_cases hp : p = k
    · simp [setParam, hp]
    · simp [setParam, hp, setParam_setParam rest k v w]

/-! ## Basic lemmas about the query-string renderer -/

theorem getParam_genClientParams_excluded : ∀ (ps : Params) (k : String),
    (k == "upsert" || k == "source" || k == "script" ||
      k == "lang" || k == "params") = true →
    getParam (genClientParams ps) k = none
  | [], _, _ => by simp [genClientParams, getParam]
  | (p, v) :: rest, k, h => by
    by_cases hp : (p == "upsert" || p == "source" || p == "script" ||
        p == "lang" || p == "params") = true
    · simpa [genClientParams, hp] using getParam_genClientParams_excluded rest k h
    · have hpk : p ≠ k := by
        intro he
        subst he
        exact hp h
      simp [genClientParams, hp, getParam, hpk,
        getParam_genClientParams_excluded rest k h]

theorem getParam_genClientParams_of_get : ∀ (ps : Params) (k : String),
    (k == "upsert" || k == "source" || k == "script" ||
      k == "lang" || k == "params") = false →
    ∀ v, getParam ps k = some v →
    getParam (genClientParams ps) k = some (joinIfArray v)
  | [], _, _, _, hv => by simp [getParam] at hv
  | (p, w) :: rest, k, hk, v, hv => by
    by_cases hpk : p = k
    · subst hpk
      simp only [getParam, beq_self_eq_true, if_pos] at hv
      injection hv with hw
      subst hw
      simp [genClientParams, hk, getParam]
    · have hv' : getParam rest k = some v := by
        simpa [getParam, hpk] using hv
      by_cases hp : (p == "upsert" || p == "source" || p == "script" ||
          p == "lang" || p == "params") = true
      · simpa [genClientParams, hp] using
          getParam_genClientParams_of_get rest k hk v hv'
      · simp [genClientParams, hp, getParam, hpk,
          getParam_genClientParams_of_get rest k hk v hv']

/-! ## Lookup behaviour of the update body object -/

theorem getParam_updateData (ps : Params) :
    getParam (updateData ps) "script" = getParam ps "script" ∧
    getParam (updateData ps) "lang" = getParam ps "lang" ∧
    getParam (updateData ps) "params" = getParam ps "params" ∧
    getParam (updateData ps) "upsert" = getParam ps "upsert" ∧
    getParam (updateData ps) "doc" = getParam ps "source" := by
  cases hs : getParam ps "script" <;> cases hl : getParam ps "lang" <;>
    cases hp : getParam ps "params" <;> cases hu : getParam ps "upsert" <;>
    cases hsrc : getParam ps "source" <;>
    simp [updateData, hs, hl, hp, hu, hsrc, getParam]

/-! ## Behaviour of the dispatch operations on failed preconditions -/

theorem doGet_missing (d : Document)
    (h : d.index = none ∨ d.type = none ∨ d.id = none) :
    doGet true d = (.error (.error "Index, Type, and ID must be set"), d) := by
  cases hi : d.index <;> cases ht : d.type <;> cases hid : d.id <;>
    simp_all [doGet]

theorem doUpdate_missing (d : Document)
    (h : d.index = none ∨ d.type = none ∨ d.id = none) :
    doUpdate true d = (.error (.error "Index, Type, and ID must be set"), d) := by
  cases hi : d.index <;> cases ht : d.type <;> cases hid : d.id <;>
    simp_all [doUpdate]

theorem doDelete_missing (d : Document)
    (h : d.index = none ∨ d.type = none ∨ d.id = none) :
    doDelete true d = (.error (.error "Index, Type, and ID must be set"), d) := by
  cases hi : d.index <;> cases ht : d.type <;> cases hid : d.id <;>
    simp_all [doDelete]

/-! ## Claims -/

/-- C1: for `doIndex` with `index` and `type` set and the `source` option
set, a missing `id` yields a POST to `/index/type` with body the JSON
encoding of `source`, a set `id` yields a PUT to `/index/type/id`, and in
both cases the query-string renderer output is appended after `?` exactly
when it is non-empty. -/
theorem claim_C1_store_request (d : Document) (i t : String) (src : JVal)
    (hi : d.index = some (.str i)) (ht : d.type = some (.str t))
    (hs : getParam d.params "source" = some src) :
    (d.id = none →
      doIndex true d =
        (.ok (.post
          (if genParamStr d.params = "" then "/" ++ i ++ "/" ++ t
           else "/" ++ i ++ "/" ++ t ++ "?" ++ genParamStr d.params)
          (stringify src)), d)) ∧
    (∀ s : String, d.id = some (.str s) →
      doIndex true d =
        (.ok (.put
          (if genParamStr d.params = "" then "/" ++ i ++ "/" ++ t ++ "/" ++ s
           else "/" ++ i ++ "/" ++ t ++ "/" ++ s ++ "?" ++ genParamStr d.params)
          (stringify src)), d)) := by
  constructor
  · intro hid
    by_cases hq : genParamStr d.params = "" <;>
      simp [doIndex, hi, ht, hs, hid, hq, jsToString]
  · intro s hid
    by_cases hq : genParamStr d.params = "" <;>
      simp [doIndex, hi, ht, hs, hid, hq, jsToString]

/-- Witness for C1: `store` on index `i`, type `t`, source `{"f":1}`
POSTs to `/i/t`; with id `5` it PUTs to `/i/t/5`. -/
theorem claim_C1_store_request_witness :
    doIndex true ⟨some (.str "i"), some (.str "t"), none,
        [("source", .obj [("f", .num 1)])]⟩
      = (.ok (.post "/i/t" (stringify (.obj [("f", .num 1)]))),
         ⟨some (.str "i"), some (.str "t"), none,
          [("source", .obj [("f", .num 1)])]⟩) ∧
    doIndex true ⟨some (.str "i"), some (.str "t"), some (.str "5"),
        [("source", .obj [("f", .num 1)])]⟩
      = (.ok (.put "/i/t/5" (stringify (.obj [("f", .num 1)]))),
         ⟨some (.str "i"), some (.str "t"), some (.str "5"),
          [("source", .obj [("f", .num 1)])]⟩) := by
  constructor
  · have h := (claim_C1_store_request
      ⟨some (.str "i"), some (.str "t"), none, [("source", .obj [("f", .num 1)])]⟩
      "i" "t" (.obj [("f", .num 1)]) rfl rfl rfl).1 rfl
    rw [h]
    rfl
  · have h := (claim_C1_store_request
      ⟨some (.str "i"), some (.str "t"), some (.str "5"),
        [("source", .obj [("f", .num 1)])]⟩
      "i" "t" (.obj [("f", .num 1)]) rfl rfl rfl).2 "5" rfl
    rw [h]
    rfl

/-- C2: for `doUpdate` with `index`, `type`, `id` set: when neither
`script` nor `source` is set it raises an error before any client call;
otherwise it POSTs to `/index/type/id/_update` (query string appended when
non-empty) a body object whose keys `script`, `lang`, `params`, `upsert`
are present exactly when the corresponding option is set and whose key
`doc` holds the `source` option exactly when `source` is set. -/
theorem claim_C2_update_request (d : Document) (i t s : String)
    (hi : d.index = some (.str i)) (ht : d.type = some (.str t))
    (hid : d.id = some (.str s)) :
    ((getParam d.params "script" = none ∧ getParam d.params "source" = none) →
      doUpdate true d = (.error (.error "Update script or document required"), d)) ∧
    (¬(getParam d.params "script" = none ∧ getParam d.params "source" = none) →
      doUpdate true d =
        (.ok (.post
          (if genParamStr d.params = ""
           then "/" ++ i ++ "/" ++ t ++ "/" ++ s ++ "/_update"
           else "/" ++ i ++ "/" ++ t ++ "/" ++ s ++ "/_update" ++ "?" ++ genParamStr d.params)
          (stringify (.obj (updateData d.params)))), d)) ∧
    getParam (updateData d.params) "script" = getParam d.params "script" ∧
    getParam (updateData d.params) "lang" = getParam d.params "lang" ∧
    getParam (updateData d.params) "params" = getParam d.params "params" ∧
    getParam (updateData d.params) "upsert" = getParam d.params "upsert" ∧
    getParam (updateData d.params) "doc" = getParam d.params "source" := by
  refine ⟨?_, ?_, getParam_updateData d.params⟩
  · rintro ⟨h1, h2⟩
    simp [doUpdate, hi, ht, hid, h1, h2]
  · intro h
    have hb : ((getParam d.params "script").isNone &&
        (getParam d.params "source").isNone) = false := by
      cases hsc : getParam d.params "script" <;>
        cases hsrc : getParam d.params "source" <;> simp_all
    by_cases hq : genParamStr d.params = "" <;>
      simp [doUpdate, hi, ht, hid, hb, hq, jsToString]

/-- Witness for C2: update with only a script POSTs
`{"script":...}` (no `doc` key) to `/i/t/5/_update`; with neither script
nor source it errors. -/
theorem claim_C2_update_request_witness :
    doUpdate true ⟨some (.str "i"), some (.str "t"), some (.str "5"),
        [("script", .str "ctx._source.f+=1")]⟩
      = (.ok (.post "/i/t/5/_update"
          (stringify (.obj [("script", .str "ctx._source.f+=1")]))),
         ⟨some (.str "i"), some (.str "t"), some (.str "5"),
          [("script", .str "ctx._source.f+=1")]⟩) ∧
    getParam (updateData [("script", JVal.str "ctx._source.f+=1")]) "doc" = none ∧
    doUpdate true ⟨some (.str "i"), some (.str "t"), some (.str "5"), []⟩
      = (.error (.error "Update script or document required"),
         ⟨some (.str "i"), some (.str "t"), some (.str "5"), []⟩) := by
  refine ⟨?_, ?_, ?_⟩
  · have h := (claim_C2_update_request
      ⟨some (.str "i"), some (.str "t"), some (.str "5"),
        [("script", .str "ctx._source.f+=1")]⟩
      "i" "t" "5" rfl rfl rfl).2.1 (by simp [getParam])
    rw [h]
    rfl
  · have h := (claim_C2_update_request
      ⟨some (.str "i"), some (.str "t"), some (.str "5"),
        [("script", .str "ctx._source.f+=1")]⟩
      "i" "t" "5" rfl rfl rfl).2.2.2.2.2.2
    exact h.trans rfl
  · exact (claim_C2_update_request
      ⟨some (.str "i"), some (.str "t"), some (.str "5"), []⟩
      "i" "t" "5" rfl rfl rfl).1 ⟨rfl, rfl⟩

/-- C3: the query-string renderer never emits the body-only keys
(`upsert`, `source`, `script`, `lang`, `params`); a sequence-valued
eligible option is comma-joined; each value is URL-encoded and the
`key=value` pairs are joined with `&`; and the output is empty when no
eligible key is set. -/
theorem claim_C3_query_string_renderer (ps : Params) :
    getParam (genClientParams ps) "upsert" = none ∧
    getParam (genClientParams ps) "source" = none ∧
    getParam (genClientParams ps) "script" = none ∧
    getParam (genClientParams ps) "lang" = none ∧
    getParam (genClientParams ps) "params" = none ∧
    (∀ (k : String) (xs : List JVal),
      (k == "upsert" || k == "source" || k == "script" ||
        k == "lang" || k == "params") = false →
      getParam ps k = some (.arr xs) →
      getParam (genClientParams ps) k =
        some (.str (String.intercalate "," (jsToStringList xs)))) ∧
    genParamStr ps =
      String.intercalate "&"
        ((genClientParams ps).map fun kv =>
          kv.1 ++ "=" ++ encodeURIComponent (jsToString kv.2)) ∧
    (genClientParams ps = [] → genParamStr ps = "") := by
  refine ⟨getParam_genClientParams_excluded ps _ (by decide),
    getParam_genClientParams_excluded ps _ (by decide),
    getParam_genClientParams_excluded ps _ (by decide),
    getParam_genClientParams_excluded ps _ (by decide),
    getParam_genClientParams_excluded ps _ (by decide),
    ?_, rfl, ?_⟩
  · intro k xs hk hv
    have h := getParam_genClientParams_of_get ps k hk _ hv
    simpa [joinIfArray, isArray] using h
  · intro h
    simp only [genParamStr, h, List.map_nil]
    rfl

/-- Witness for C3: on a map holding `routing`, an array-valued `fields`
and an `upsert`, the renderer drops `upsert`, comma-joins `fields`,
URL-encodes and `&`-joins. -/
theorem claim_C3_query_string_renderer_witness :
    getParam (genClientParams
        [("routing", .str "a b"), ("fields", .arr [.str "x", .str "y"]),
         ("upsert", .obj [("f", .num 1)])]) "upsert" = none ∧
    getParam (genClientParams
        [("routing", .str "a b"), ("fields", .arr [.str "x", .str "y"]),
         ("upsert", .obj [("f", .num 1)])]) "fields"
      = some (.str (String.intercalate "," (jsToStringList [.str "x", .str "y"]))) ∧
    genParamStr
        [("routing", .str "a b"), ("fields", .arr [.str "x", .str "y"]),
         ("upsert", .obj [("f", .num 1)])]
      = "routing=a%20b&fields=x%2Cy" := by
  have h := claim_C3_query_string_renderer
    [("routing", .str "a b"), ("fields", .arr [.str "x", .str "y"]),
     ("upsert", .obj [("f", .num 1)])]
  refine ⟨h.1, h.2.2.2.2.2.1 "fields" [.str "x", .str "y"] rfl rfl, ?_⟩
  rw [h.2.2.2.2.2.2.1]
  rfl

/-- C7: each of `doGet`, `doUpdate`, `doDelete` with any of `index`,
`type`, `id` unset raises the precondition error synchronously (hence no
client call is issued, for any client configuration) and leaves the
builder state unchanged. -/
theorem claim_C7_missing_fields (d : Document)
    (h : d.index = none ∨ d.type = none ∨ d.id = none) :
    doGet true d = (.error (.error "Index, Type, and ID must be set"), d) ∧
    doUpdate true d = (.error (.error "Index, Type, and ID must be set"), d) ∧
    doDelete true d = (.error (.error "Index, Type, and ID must be set"), d) ∧
    ∀ client : Bool,
      (doGet client d).1.isOk = false ∧ (doGet client d).2 = d ∧
      (doUpdate client d).1.isOk = false ∧ (doUpdate client d).2 = d ∧
      (doDelete client d).1.isOk = false ∧ (doDelete client d).2 = d := by
  refine ⟨doGet_missing d h, doUpdate_missing d h, doDelete_missing d h, ?_⟩
  intro client
  cases client
  · simp [doGet, doUpdate, doDelete, Except.isOk, Except.toBool]
  · simp [doGet_missing d h, doUpdate_missing d h, doDelete_missing d h,
      Except.isOk, Except.toBool]

/-- Witness for C7: with index and type set but no id, all three
operations fail with the field-presence error and do not call the
client. -/
theorem claim_C7_missing_fields_witness :
    doGet true ⟨some (.str "i"), some (.str "t"), none, []⟩
      = (.error (.error "Index, Type, and ID must be set"),
         ⟨some (.str "i"), some (.str "t"), none, []⟩) ∧
    doUpdate true ⟨some (.str "i"), some (.str "t"), none, []⟩
      = (.error (.error "Index, Type, and ID must be set"),
         ⟨some (.str "i"), some (.str "t"), none, []⟩) ∧
    doDelete true ⟨some (.str "i"), some (.str "t"), none, []⟩
      = (.error (.error "Index, Type, and ID must be set"),
         ⟨some (.str "i"), some (.str "t"), none, []⟩) := by
  have h := claim_C7_missing_fields
    ⟨some (.str "i"), some (.str "t"), none, []⟩ (Or.inr (Or.inr rfl))
  exact ⟨h.1, h.2.1, h.2.2.1⟩

/-- C8: dispatch without a configured client fails on each of the four
operations with `Error('No Client Set')` — an error distinct from both
field-presence errors — issues no client call, and leaves the state
unchanged, even when all identity fields (and any options) are set. -/
theorem claim_C8_no_client (d : Document) :
    doGet false d = (.error (.error "No Client Set"), d) ∧
    doIndex false d = (.error (.error "No Client Set"), d) ∧
    doUpdate false d = (.error (.error "No Client Set"), d) ∧
    doDelete false d = (.error (.error "No Client Set"), d) ∧
    (("No Client Set" == "Index, Type, and ID must be set") = false) ∧
    (("No Client Set" == "Index and Type must be set") = false) := by
  exact ⟨rfl, rfl, rfl, rfl, rfl, rfl⟩

/-- Constructor test: did the accessor call return `this`? -/
def AccResult.isChained : AccResult → Bool
  | .chained _ => true
  | _ => false

/-- Constructor test: did the accessor call raise an exception? -/
def AccResult.didThrow : AccResult → Bool
  | .threw _ _ => true
  | _ => false

/-- Counterexample to C4 as stated: the non-null argument `42` is outside
`versionType`'s value set, yet the call raises a `TypeError` (from the
lowercasing step) instead of returning the builder; and the non-null
argument `"External"` is outside the value set (which holds only the
lowercase forms), yet the stored value does change, from absent to
`"external"`. -/
theorem claim_C4_counterexample :
    AccResult.didThrow
      (DocAcc.versionType ⟨none, none, none, []⟩ (some (.num 42))) = true ∧
    AccResult.isChained
      (DocAcc.versionType ⟨none, none, none, []⟩ (some (.num 42))) = false ∧
    DocAcc.versionType ⟨none, none, none, []⟩ (some (.num 42))
      = .threw (.typeError "toLowerCase is not a function") ⟨none, none, none, []⟩ ∧
    DocAcc.versionType ⟨none, none, none, []⟩ (some (.str "External"))
      = .chained ⟨none, none, none, [("version_type", .str "external")]⟩ ∧
    getParam ([] : Params) "version_type" = none ∧
    getParam [("version_type", JVal.str "external")] "version_type"
      = some (JVal.str "external") :=
  ⟨rfl, rfl, rfl, rfl, rfl, rfl⟩

/-- C4 (amended): for every enumerated-option accessor and every *string*
argument whose lowercased form is outside the option's value set, the
call raises no error, leaves the previously stored value (or absence)
unchanged, and returns the builder unchanged, preserving chaining. -/
theorem claim_C4_amended_invalid_enum (d : Document) (s : String) :
    (¬(strToLower s = "internal" ∨ strToLower s = "external") →
      DocAcc.versionType d (some (.str s)) = .chained d) ∧
    (¬(strToLower s = "index" ∨ strToLower s = "create") →
      DocAcc.opType d (some (.str s)) = .chained d) ∧
    (¬(strToLower s = "async" ∨ strToLower s = "sync" ∨
        strToLower s = "default") →
      DocAcc.replication d (some (.str s)) = .chained d) ∧
    (¬(strToLower s = "default" ∨ strToLower s = "one" ∨
        strToLower s = "quorum" ∨ strToLower s = "all") →
      DocAcc.consistency d (some (.str s)) = .chained d) := by
  refine ⟨?_, ?_, ?_, ?_⟩ <;> intro h <;> push_neg at h
  · simp [DocAcc.versionType, toLowerCase, beq_iff_eq, h.1, h.2]
  · simp [DocAcc.opType, toLowerCase, beq_iff_eq, h.1, h.2]
  · simp [DocAcc.replication, toLowerCase, beq_iff_eq, h.1, h.2.1, h.2.2]
  · simp [DocAcc.consistency, toLowerCase, beq_iff_eq, h.1, h.2.1, h.2.2.1, h.2.2.2]

/-- Witness for the amended C4: `"bogus"` is silently ignored by all four
enumerated accessors. -/
theorem claim_C4_amended_invalid_enum_witness :
    DocAcc.versionType ⟨none, none, none, []⟩ (some (.str "bogus"))
      = .chained ⟨none, none, none, []⟩ ∧
    DocAcc.opType ⟨none, none, none, []⟩ (some (.str "bogus"))
      = .chained ⟨none, none, none, []⟩ ∧
    DocAcc.replication ⟨none, none, none, []⟩ (some (.str "bogus"))
      = .chained ⟨none, none, none, []⟩ ∧
    DocAcc.consistency ⟨none, none, none, []⟩ (some (.str "bogus"))
      = .chained ⟨none, none, none, []⟩ := by
  have h := claim_C4_amended_invalid_enum ⟨none, none, none, []⟩ "bogus"
  exact ⟨h.1 (by decide), h.2.1 (by decide), h.2.2.1 (by decide), h.2.2.2 (by decide)⟩

/-- C10: every enumerated accessor lowercases its argument before
validating and storing: a mixed-case in-set value is stored (and later
read back) as its lowercase form, and a non-string non-null argument
raises a `TypeError` from the lowercasing step instead of being silently
ignored. -/
theorem claim_C10_enum_lowercases (d : Document) (s : String) (v : JVal) :
    ((strToLower s = "internal" ∨ strToLower s = "external") →
      DocAcc.versionType d (some (.str s)) =
        .chained { d with params := setParam d.params "version_type" (.str (strToLower s)) } ∧
      DocAcc.versionType
          { d with params := setParam d.params "version_type" (.str (strToLower s)) } none =
        .got (some (.str (strToLower s)))
          { d with params := setParam d.params "version_type" (.str (strToLower s)) }) ∧
    ((strToLower s = "index" ∨ strToLower s = "create") →
      DocAcc.opType d (some (.str s)) =
        .chained { d with params := setParam d.params "op_type" (.str (strToLower s)) } ∧
      DocAcc.opType
          { d with params := setParam d.params "op_type" (.str (strToLower s)) } none =
        .got (some (.str (strToLower s)))
          { d with params := setParam d.params "op_type" (.str (strToLower s)) }) ∧
    ((strToLower s = "async" ∨ strToLower s = "sync" ∨ strToLower s = "default") →
      DocAcc.replication d (some (.str s)) =
        .chained { d with params := setParam d.params "replication" (.str (strToLower s)) } ∧
      DocAcc.replication
          { d with params := setParam d.params "replication" (.str (strToLower s)) } none =
        .got (some (.str (strToLower s)))
          { d with params := setParam d.params "replication" (.str (strToLower s)) }) ∧
    ((strToLower s = "default" ∨ strToLower s = "one" ∨
        strToLower s = "quorum" ∨ strToLower s = "all") →
      DocAcc.consistency d (some (.str s)) =
        .chained { d with params := setParam d.params "consistency" (.str (strToLower s)) } ∧
      DocAcc.consistency
          { d with params := setParam d.params "consistency" (.str (strToLower s)) } none =
        .got (some (.str (strToLower s)))
          { d with params := setParam d.params "consistency" (.str (strToLower s)) }) ∧
    (isString v = false →
      DocAcc.versionType d (some v)
        = .threw (.typeError "toLowerCase is not a function") d ∧
      DocAcc.opType d (some v)
        = .threw (.typeError "toLowerCase is not a function") d ∧
      DocAcc.replication d (some v)
        = .threw (.typeError "toLowerCase is not a function") d ∧
      DocAcc.consistency d (some v)
        = .threw (.typeError "toLowerCase is not a function") d) := by
  refine ⟨?_, ?_, ?_, ?_, ?_⟩
  · intro h
    rcases h with h | h <;>
      simp [DocAcc.versionType, toLowerCase, h, getParam_setParam_self]
  · intro h
    rcases h with h | h <;>
      simp [DocAcc.opType, toLowerCase, h, getParam_setParam_self]
  · intro h
    rcases h with h | h | h <;>
      simp [DocAcc.replication, toLowerCase, h, getParam_setParam_self]
  · intro h
    rcases h with h | h | h | h <;>
      simp [DocAcc.consistency, toLowerCase, h, getParam_setParam_self]
  · intro h
    cases v <;> simp_all [DocAcc.versionType, DocAcc.opType, DocAcc.replication,
      DocAcc.consistency, toLowerCase, isString]

/-- Witness for C10: `"External"` is accepted and stored as `"external"`,
`"QUORUM"` as `"quorum"` (and read back lowercased), while the non-string
`true` makes `opType` throw. -/
theorem claim_C10_enum_lowercases_witness :
    DocAcc.versionType ⟨none, none, none, []⟩ (some (.str "External"))
      = .chained ⟨none, none, none, [("version_type", .str "external")]⟩ ∧
    DocAcc.consistency ⟨none, none, none, []⟩ (some (.str "QUORUM"))
      = .chained ⟨none, none, none, [("consistency", .str "quorum")]⟩ ∧
    DocAcc.consistency ⟨none, none, none, [("consistency", .str "quorum")]⟩ none
      = .got (some (.str "quorum")) ⟨none, none, none, [("consistency", .str "quorum")]⟩ ∧
    DocAcc.opType ⟨none, none, none, []⟩ (some (.bool true))
      = .threw (.typeError "toLowerCase is not a function") ⟨none, none, none, []⟩ := by
  have h1 := (claim_C10_enum_lowercases ⟨none, none, none, []⟩ "External" (.bool true)).1
    (by decide)
  have h2 := (claim_C10_enum_lowercases ⟨none, none, none, []⟩ "QUORUM" (.bool true)).2.2.2.1
    (by decide)
  have h3 := (claim_C10_enum_lowercases ⟨none, none, none, []⟩ "QUORUM" (.bool true)).2.2.2.2
    rfl
  exact ⟨h1.1.trans rfl, h2.1.trans rfl, h2.2.trans rfl, h3.2.1⟩

/-- C5: the `fields` accessor lazily initializes the stored value to an
empty sequence before read or append semantics apply; a single-string
call appends to the current stored sequence; a sequence call replaces the
stored value with exactly that sequence. -/
theorem claim_C5_fields_semantics (d : Document) (s : String) (ys : List JVal) :
    (getParam d.params "fields" = none →
      DocAcc.fields d none =
        .got (some (.arr []))
          { d with params := setParam d.params "fields" (.arr []) } ∧
      DocAcc.fields d (some (.str s)) =
        .chained { d with params := setParam d.params "fields" (.arr [.str s]) }) ∧
    (∀ xs : List JVal, getParam d.params "fields" = some (.arr xs) →
      DocAcc.fields d none = .got (some (.arr xs)) d ∧
      DocAcc.fields d (some (.str s)) =
        .chained { d with params := setParam d.params "fields" (.arr (xs ++ [.str s])) }) ∧
    DocAcc.fields d (some (.arr ys)) =
      .chained { d with params := setParam d.params "fields" (.arr ys) } := by
  refine ⟨?_, ?_, ?_⟩
  · intro h
    constructor
    · simp [DocAcc.fields, DocAcc.fieldsInit, h, getParam_setParam_self]
    · simp [DocAcc.fields, DocAcc.fieldsInit, h, isString, getParam_setParam_self,
        setParam_setParam]
  · intro xs h
    constructor
    · simp [DocAcc.fields, DocAcc.fieldsInit, h]
    · simp [DocAcc.fields, DocAcc.fieldsInit, h, isString]
  · cases hf : getParam d.params "fields" <;>
      simp [DocAcc.fields, DocAcc.fieldsInit, hf, isString, isArray, setParam_setParam]

/-- Witness for C5: from a fresh builder, a read initializes to `[]`,
`"a"` then `"b"` accumulate to `["a","b"]`, and `["x","y"]` then
overwrites. -/
theorem claim_C5_fields_semantics_witness :
    DocAcc.fields ⟨none, none, none, []⟩ none
      = .got (some (.arr [])) ⟨none, none, none, [("fields", .arr [])]⟩ ∧
    DocAcc.fields ⟨none, none, none, []⟩ (some (.str "a"))
      = .chained ⟨none, none, none, [("fields", .arr [.str "a"])]⟩ ∧
    DocAcc.fields ⟨none, none, none, [("fields", .arr [.str "a"])]⟩ (some (.str "b"))
      = .chained ⟨none, none, none, [("fields", .arr [.str "a", .str "b"])]⟩ ∧
    DocAcc.fields ⟨none, none, none, [("fields", .arr [.str "a", .str "b"])]⟩
        (some (.arr [.str "x", .str "y"]))
      = .chained ⟨none, none, none, [("fields", .arr [.str "x", .str "y"])]⟩ := by
  have h1 := (claim_C5_fields_semantics ⟨none, none, none, []⟩ "a" []).1 rfl
  have h2 := (claim_C5_fields_semantics
    ⟨none, none, none, [("fields", .arr [.str "a"])]⟩ "b" []).2.1 [.str "a"] rfl
  have h3 := (claim_C5_fields_semantics
    ⟨none, none, none, [("fields", .arr [.str "a", .str "b"])]⟩ "z"
    [.str "x", .str "y"]).2.2
  exact ⟨h1.1.trans rfl, h1.2.trans rfl, h2.2.trans rfl, h3.trans rfl⟩

/-- C9: `params`, `upsert` and `source` throw a `TypeError` at the call
site on any non-object argument and leave the stored option value (indeed
the whole builder) unchanged; `fields` throws a `TypeError` at the call
site on any argument that is neither a string nor a sequence (its builder
state after the throw is the lazily-initialized one). -/
theorem claim_C9_shape_validation (d : Document) (v : JVal) :
    (isObject v = false →
      DocAcc.params d (some v)
        = .threw (.typeError "Argument must be an object") d ∧
      DocAcc.upsert d (some v)
        = .threw (.typeError "Argument must be an object") d ∧
      DocAcc.source d (some v)
        = .threw (.typeError "Argument must be an object") d) ∧
    (isString v = false → isArray v = false →
      DocAcc.fields d (some v)
        = .threw (.typeError "Argument must be string or array") (DocAcc.fieldsInit d)) := by
  constructor
  · intro h
    refine ⟨?_, ?_, ?_⟩ <;> simp [DocAcc.params, DocAcc.upsert, DocAcc.source, DocAcc.objAcc, h]
  · intro h1 h2
    simp [DocAcc.fields, h1, h2]

/-- Witness for C9: the number `7` makes `params`, `upsert`, `source` and
`fields` throw, leaving the stored options unchanged (for `fields`, after
lazy initialization). -/
theorem claim_C9_shape_validation_witness :
    DocAcc.params ⟨none, none, none, [("routing", .str "r")]⟩ (some (.num 7))
      = .threw (.typeError "Argument must be an object")
        ⟨none, none, none, [("routing", .str "r")]⟩ ∧
    DocAcc.upsert ⟨none, none, none, [("routing", .str "r")]⟩ (some (.num 7))
      = .threw (.typeError "Argument must be an object")
        ⟨none, none, none, [("routing", .str "r")]⟩ ∧
    DocAcc.source ⟨none, none, none, [("routing", .str "r")]⟩ (some (.num 7))
      = .threw (.typeError "Argument must be an object")
        ⟨none, none, none, [("routing", .str "r")]⟩ ∧
    DocAcc.fields ⟨none, none, none, [("routing", .str "r")]⟩ (some (.num 7))
      = .threw (.typeError "Argument must be string or array")
        ⟨none, none, none, [("routing", .str "r"), ("fields", .arr [])]⟩ := by
  have h := claim_C9_shape_validation ⟨none, none, none, [("routing", .str "r")]⟩ (.num 7)
  have h1 := h.1 rfl
  exact ⟨h1.1, h1.2.1, h1.2.2, (h.2 rfl rfl).trans rfl⟩

/-- One set-then-get round trip: whenever calling `acc` with value `v`
returns the builder, calling `acc` on that builder with no argument
returns exactly `v`. -/
def RoundTrips (acc : Document → Option JVal → AccResult)
    (d : Document) (v : JVal) : Prop :=
  ∀ d' : Document, acc d (some v) = .chained d' → acc d' none = .got (some v) d'

theorem roundTrips_paramAcc (key : String) (d : Document) (v : JVal) :
    RoundTrips (DocAcc.paramAcc key) d v := by
  intro d' h
  simp only [DocAcc.paramAcc, AccResult.chained.injEq] at h
  subst h
  simp [DocAcc.paramAcc, getParam_setParam_self]

theorem roundTrips_objAcc (key : String) (d : Document)
    (kvs : List (String × JVal)) :
    RoundTrips (DocAcc.objAcc key) d (.obj kvs) := by
  intro d' h
  simp only [DocAcc.objAcc, isObject, if_true, AccResult.chained.injEq] at h
  subst h
  simp [DocAcc.objAcc, getParam_setParam_self]

theorem roundTrips_identity (d : Document) (v : JVal) :
    RoundTrips DocAcc.index d v ∧ RoundTrips DocAcc.type d v ∧
    RoundTrips DocAcc.id d v := by
  refine ⟨?_, ?_, ?_⟩ <;> intro d' h
  · simp only [DocAcc.index, AccResult.chained.injEq] at h
    subst h
    rfl
  · simp only [DocAcc.type, AccResult.chained.injEq] at h
    subst h
    rfl
  · simp only [DocAcc.id, AccResult.chained.injEq] at h
    subst h
    rfl

theorem roundTrips_fields (d : Document) (ys : List JVal) :
    RoundTrips DocAcc.fields d (.arr ys) := by
  intro d' h
  cases hf : getParam d.params "fields" <;>
    simp [DocAcc.fields, DocAcc.fieldsInit, hf, isString, isArray,
      setParam_setParam] at h <;>
  · subst h
    simp [DocAcc.fields, DocAcc.fieldsInit, getParam_setParam_self]

theorem roundTrips_versionType (d : Document) (s : String)
    (h : s = "internal" ∨ s = "external") :
    RoundTrips DocAcc.versionType d (.str s) := by
  intro d' hc
  have hl : strToLower s = s := by rcases h with h | h <;> subst h <;> rfl
  have hb : (s == "internal" || s == "external") = true := by
    rcases h with h | h <;> subst h <;> rfl
  simp only [DocAcc.versionType, toLowerCase, hl, hb, if_true,
    AccResult.chained.injEq] at hc
  subst hc
  simp [DocAcc.versionType, getParam_setParam_self]

theorem roundTrips_opType (d : Document) (s : String)
    (h : s = "index" ∨ s = "create") :
    RoundTrips DocAcc.opType d (.str s) := by
  intro d' hc
  have hl : strToLower s = s := by rcases h with h | h <;> subst h <;> rfl
  have hb : (s == "index" || s == "create") = true := by
    rcases h with h | h <;> subst h <;> rfl
  simp only [DocAcc.opType, toLowerCase, hl, hb, if_true,
    AccResult.chained.injEq] at hc
  subst hc
  simp [DocAcc.opType, getParam_setParam_self]

theorem roundTrips_replication (d : Document) (s : String)
    (h : s = "async" ∨ s = "sync" ∨ s = "default") :
    RoundTrips DocAcc.replication d (.str s) := by
  intro d' hc
  have hl : strToLower s = s := by rcases h with h | h | h <;> subst h <;> rfl
  have hb : (s == "async" || s == "sync" || s == "default") = true := by
    rcases h with h | h | h <;> subst h <;> rfl
  simp only [DocAcc.replication, toLowerCase, hl, hb, if_true,
    AccResult.chained.injEq] at hc
  subst hc
  simp [DocAcc.replication, getParam_setParam_self]

theorem roundTrips_consistency (d : Document) (s : String)
    (h : s = "default" ∨ s = "one" ∨ s = "quorum" ∨ s = "all") :
    RoundTrips DocAcc.consistency d (.str s) := by
  intro d' hc
  have hl : strToLower s = s := by rcases h with h | h | h | h <;> subst h <;> rfl
  have hb : (s == "default" || s == "one" || s == "quorum" || s == "all") = true := by
    rcases h with h | h | h | h <;> subst h <;> rfl
  simp only [DocAcc.consistency, toLowerCase, hl, hb, if_true,
    AccResult.chained.injEq] at hc
  subst hc
  simp [DocAcc.consistency, getParam_setParam_self]

/-- Counterexample to C6 as stated: `"External"` is accepted by
`versionType` (the value is validated, stored, and the builder returned),
but reading the option back yields `"external"`, not the exact value that
was passed. -/
theorem claim_C6_counterexample :
    DocAcc.versionType ⟨none, none, none, []⟩ (some (.str "External"))
      = .chained ⟨none, none, none, [("version_type", .str "external")]⟩ ∧
    DocAcc.versionType ⟨none, none, none, [("version_type", .str "external")]⟩ none
      = .got (some (.str "external"))
          ⟨none, none, none, [("version_type", .str "external")]⟩ ∧
    (("external" == "External") = false) :=
  ⟨rfl, rfl, rfl⟩

/-- C6 (amended): set-then-get returns the exact value passed for every
accessor and every accepted value that is stored as passed: any value for
the identity accessors and the free-form options, any key-value object
for `params`/`upsert`/`source`, any sequence for `fields`, and the
canonical lowercase members of the value set for the four enumerated
options (mixed-case accepted values are read back lowercased — see the
counterexample — and a single string accepted by `fields` is read back as
a member of the stored sequence). -/
theorem claim_C6_amended_roundtrip (d : Document) (v : JVal)
    (kvs : List (String × JVal)) (ys : List JVal) (s : String) :
    RoundTrips DocAcc.index d v ∧
    RoundTrips DocAcc.type d v ∧
    RoundTrips DocAcc.id d v ∧
    RoundTrips DocAcc.routing d v ∧
    RoundTrips DocAcc.parent d v ∧
    RoundTrips DocAcc.timestamp d v ∧
    RoundTrips DocAcc.ttl d v ∧
    RoundTrips DocAcc.timeout d v ∧
    RoundTrips DocAcc.refresh d v ∧
    RoundTrips DocAcc.version d v ∧
    RoundTrips DocAcc.percolate d v ∧
    RoundTrips DocAcc.preference d v ∧
    RoundTrips DocAcc.realtime d v ∧
    RoundTrips DocAcc.script d v ∧
    RoundTrips DocAcc.lang d v ∧
    RoundTrips DocAcc.retryOnConflict d v ∧
    RoundTrips DocAcc.params d (.obj kvs) ∧
    RoundTrips DocAcc.upsert d (.obj kvs) ∧
    RoundTrips DocAcc.source d (.obj kvs) ∧
    RoundTrips DocAcc.fields d (.arr ys) ∧
    ((s = "internal" ∨ s = "external") →
      RoundTrips DocAcc.versionType d (.str s)) ∧
    ((s = "index" ∨ s = "create") →
      RoundTrips DocAcc.opType d (.str s)) ∧
    ((s = "async" ∨ s = "sync" ∨ s = "default") →
      RoundTrips DocAcc.replication d (.str s)) ∧
    ((s = "default" ∨ s = "one" ∨ s = "quorum" ∨ s = "all") →
      RoundTrips DocAcc.consistency d (.str s)) := by
  obtain ⟨hi, ht, hid⟩ := roundTrips_identity d v
  exact ⟨hi, ht, hid,
    roundTrips_paramAcc "routing" d v,
    roundTrips_paramAcc "parent" d v,
    roundTrips_paramAcc "timestamp" d v,
    roundTrips_paramAcc "ttl" d v,
    roundTrips_paramAcc "timeout" d v,
    roundTrips_paramAcc "refresh" d v,
    roundTrips_paramAcc "version" d v,
    roundTrips_paramAcc "percolate" d v,
    roundTrips_paramAcc "preference" d v,
    roundTrips_paramAcc "realtime" d v,
    roundTrips_paramAcc "script" d v,
    roundTrips_paramAcc "lang" d v,
    roundTrips_paramAcc "retry_on_conflict" d v,
    roundTrips_objAcc "params" d kvs,
    roundTrips_objAcc "upsert" d kvs,
    roundTrips_objAcc "source" d kvs,
    roundTrips_fields d ys,
    roundTrips_versionType d s,
    roundTrips_opType d s,
    roundTrips_replication d s,
    roundTrips_consistency d s⟩

/-- Witness for the amended C6: concrete set-then-get round trips for a
free-form option, an object option, `fields` with a sequence, and an
enumerated option at a canonical value. -/
theorem claim_C6_amended_roundtrip_witness :
    DocAcc.routing ⟨none, none, none, [("routing", .str "r")]⟩ none
      = .got (some (.str "r")) ⟨none, none, none, [("routing", .str "r")]⟩ ∧
    DocAcc.source ⟨none, none, none, [("source", .obj [("f", .num 1)])]⟩ none
      = .got (some (.obj [("f", .num 1)]))
          ⟨none, none, none, [("source", .obj [("f", .num 1)])]⟩ ∧
    DocAcc.fields ⟨none, none, none, [("fields", .arr [.str "x", .str "y"])]⟩ none
      = .got (some (.arr [.str "x", .str "y"]))
          ⟨none, none, none, [("fields", .arr [.str "x", .str "y"])]⟩ ∧
    DocAcc.versionType ⟨none, none, none, [("version_type", .str "external")]⟩ none
      = .got (some (.str "external"))
          ⟨none, none, none, [("version_type", .str "external")]⟩ := by
  have h := claim_C6_amended_roundtrip ⟨none, none, none, []⟩ (.str "r")
    [("f", .num 1)] [.str "x", .str "y"] "external"
  exact ⟨h.2.2.2.1 _ rfl,
    h.2.2.2.2.2.2.2.2.2.2.2.2.2.2.2.2.2.2.1 _ rfl,
    h.2.2.2.2.2.2.2.2.2.2.2.2.2.2.2.2.2.2.2.1 _ rfl,
    h.2.2.2.2.2.2.2.2.2.2.2.2.2.2.2.2.2.2.2.2.1 (Or.inr rfl) _ rfl⟩

end ElasticDoc
